import Mathlib

/-!
Shallow embedding of `src/monitor.py` (platform-monitoring).

The script maintains, per monitored resource, a bounded rolling window of
samples (`_append_fixed_length`), and a detector method
(`is_beyond_threshold`) that pushes one fresh sample, recomputes the mean
(`np.average`) and fires when the mean reaches the threshold while the
window is full, clearing the window on fire.

Samples, thresholds and times are modelled as rationals (`ℚ`); Python list
mutation becomes explicit state passing.  `CPUResource.is_beyond_threshold`
and `MemoryResource.is_beyond_threshold` have identical bodies except for
which sampler (`psutil.cpu_percent()` vs `psutil.virtual_memory()[2]`) is
called, so a single function over the sampled value embeds both methods.
The argparse layer stores raw, unvalidated option strings; it is embedded
separately with `Option String` thresholds.
-/

/-- Constant `THRESHOLD_CHECK_INTERVAL = 1` of the script (seconds between ticks). -/
def THRESHOLD_CHECK_INTERVAL : ℕ := 1

/-- Constant `THRESHOLD_TIME_LAPSE = 20` of the script (window capacity). -/
def THRESHOLD_TIME_LAPSE : ℕ := 20

/-- Embedding of `_append_fixed_length(value_list, v, max_size)`:
if `len(value_list) >= max_size` then the oldest element is removed
(`value_list.pop(0)`), and then `v` is appended.  Python mutates the list
in place; here the updated list is returned. -/
def _append_fixed_length (value_list : List ℚ) (v : ℚ) (max_size : ℕ) : List ℚ :=
  (if max_size ≤ value_list.length then value_list.tail else value_list) ++ [v]

/-- Embedding of `np.average(l)`: sum of the elements divided by their count. -/
def npAverage (l : List ℚ) : ℚ :=
  l.sum / (l.length : ℚ)

/-- State of a detector object (`CPUResource` / `MemoryResource`): the fields
set in `__init__` and mutated by `is_beyond_threshold`. -/
structure Resource where
  resource_name : String
  time_threshold_minutes : ℕ
  threshold : ℚ
  last_time_checked : ℚ
  list_of_values : List ℚ
  last_value : ℚ
deriving DecidableEq

/-- Embedding of `CPUResource.__init__(threshold_time, threshold_average)`;
`now` stands for the `time.time()` call. -/
def CPUResource.init (threshold_time : ℕ) (threshold_average : ℚ) (now : ℚ) : Resource :=
  { resource_name := "CPU"
    time_threshold_minutes := threshold_time
    threshold := threshold_average
    last_time_checked := now
    list_of_values := []
    last_value := 0 }

/-- Embedding of `MemoryResource.__init__(threshold_time, threshold_average)`;
`now` stands for the `time.time()` call. -/
def MemoryResource.init (threshold_time : ℕ) (threshold_average : ℚ) (now : ℚ) : Resource :=
  { resource_name := "Memory"
    time_threshold_minutes := threshold_time
    threshold := threshold_average
    last_time_checked := now
    list_of_values := []
    last_value := 0 }

/-- Embedding of `is_beyond_threshold(self)` of `CPUResource` and
`MemoryResource` (their bodies are identical up to the sampler call):
record the check time, push the fresh `sample` into the window with
`_append_fixed_length(..., THRESHOLD_TIME_LAPSE)`, set
`last_value = np.average(list_of_values)`, and if
`last_value >= threshold and len(list_of_values) >= THRESHOLD_TIME_LAPSE`
clear the window and return `True`, else return `False`.
Returns the boolean result together with the updated object state. -/
def is_beyond_threshold (r : Resource) (sample now : ℚ) : Bool × Resource :=
  let l := _append_fixed_length r.list_of_values sample THRESHOLD_TIME_LAPSE
  let avg := npAverage l
  if r.threshold ≤ avg ∧ THRESHOLD_TIME_LAPSE ≤ l.length then
    (true, { r with last_time_checked := now, list_of_values := [], last_value := avg })
  else
    (false, { r with last_time_checked := now, list_of_values := l, last_value := avg })

/-- Repeated calls of `is_beyond_threshold` on one detector, one call per
sample in `samples` (the per-tick calls of the monitor loop restricted to a
single registered resource).  Returns the list of boolean results in call
order together with the final state. -/
def runChecks (r : Resource) (samples : List ℚ) (now : ℚ) : List Bool × Resource :=
  match samples with
  | [] => ([], r)
  | v :: vs =>
    let res := is_beyond_threshold r v now
    let rest := runChecks res.2 vs now
    (res.1 :: rest.1, rest.2)

/-- Repeated `_append_fixed_length` pushes starting from `l` (the window
evolution alone, ignoring the threshold test). -/
def pushAll (l : List ℚ) (vs : List ℚ) : List ℚ :=
  vs.foldl (fun acc v => _append_fixed_length acc v THRESHOLD_TIME_LAPSE) l

/-- Embedding of one detector check where the sampler call may fail.
`psutil.cpu_percent()` / `psutil.virtual_memory()` raising is modelled by
`sample = none`.  The method body contains no exception handler, so a
sampler exception propagates out of the call (`Except.error`); the object
is left with the already-updated `last_time_checked` (assigned before the
sampler call) and an untouched window. -/
def is_beyond_threshold_sampled (r : Resource) (sample : Option ℚ) (now : ℚ) :
    Except Resource (Bool × Resource) :=
  match sample with
  | none => Except.error { r with last_time_checked := now }
  | some v => Except.ok (is_beyond_threshold r v now)

/-- Embedding of one iteration of the monitor loop body
(`for r in resources_to_check: if r.is_beyond_threshold(): warn_threshold_breach(...)`),
with each detector paired with its sampler outcome for this tick.  Returns
the `(resource_name, last_value)` pairs passed to `warn_threshold_breach`
and the updated detector states; an uncaught sampler exception aborts the
whole iteration (`Except.error`), skipping the remaining detectors. -/
def monitorTick (pairs : List (Resource × Option ℚ)) (now : ℚ) :
    Except Resource (List (String × ℚ) × List Resource) :=
  match pairs with
  | [] => Except.ok ([], [])
  | (r, s) :: rest =>
    match is_beyond_threshold_sampled r s now with
    | Except.error e => Except.error e
    | Except.ok (b, r') =>
      match monitorTick rest now with
      | Except.error e => Except.error e
      | Except.ok (ws, rs) =>
        Except.ok ((if b then [(r'.resource_name, r'.last_value)] else []) ++ ws, r' :: rs)

/-- Embedding of the argparse `Namespace` produced by `parser.parse_args()`:
both destinations `cpu_threshold_percent` and `memory_threshold_percent`
are always present as attributes; each holds the raw command-line string
when the flag was supplied (no `type=` conversion is configured) and
`None` otherwise. -/
structure Args where
  cpu_threshold_percent : Option String
  memory_threshold_percent : Option String
deriving DecidableEq

/-- Embedding of Python `dest in args` on an argparse `Namespace`: it tests
attribute presence (`dest in vars(args)`), not whether the flag was
supplied, and both destinations are always present (default `None`), so
the test is independent of the parsed values. -/
def argsContains (_ : Args) (dest : String) : Bool :=
  dest == "cpu_threshold_percent" || dest == "memory_threshold_percent"

/-- A detector as registered by the script: `__init__` stores the raw
argparse attribute value (`args.cpu_threshold_percent` /
`args.memory_threshold_percent`) as the threshold, with no parsing,
validation or clamping. -/
structure RegisteredResource where
  resource_name : String
  time_threshold_minutes : ℕ
  threshold : Option String
deriving DecidableEq

/-- Embedding of the registration block building `resources_to_check`:
`if 'cpu_threshold_percent' in args:` append a `CPUResource`, then
`if 'memory_threshold_percent' in args:` append a `MemoryResource`. -/
def resources_to_check (args : Args) : List RegisteredResource :=
  (if argsContains args "cpu_threshold_percent" then
    [{ resource_name := "CPU"
       time_threshold_minutes := THRESHOLD_TIME_LAPSE
       threshold := args.cpu_threshold_percent }]
   else []) ++
  (if argsContains args "memory_threshold_percent" then
    [{ resource_name := "Memory"
       time_threshold_minutes := THRESHOLD_TIME_LAPSE
       threshold := args.memory_threshold_percent }]
   else [])

/-! ### Window lemmas -/

/-- A push onto a window below capacity is a plain append. -/
lemma append_fixed_length_of_lt (l : List ℚ) (v : ℚ) (h : l.length < THRESHOLD_TIME_LAPSE) :
    _append_fixed_length l v THRESHOLD_TIME_LAPSE = l ++ [v] := by
  unfold _append_fixed_length
  rw [if_neg (by omega)]

/-- A push always leaves at least one element in the window. -/
lemma append_fixed_length_length_pos (l : List ℚ) (v : ℚ) (m : ℕ) :
    1 ≤ (_append_fixed_length l v m).length := by
  unfold _append_fixed_length
  simp

/-- Shape of the window after any number of pushes starting from a window
within capacity: it is the concatenation truncated (from the front) to the
last `THRESHOLD_TIME_LAPSE` elements. -/
lemma pushAll_eq_drop :
    ∀ (vs l : List ℚ), l.length ≤ THRESHOLD_TIME_LAPSE →
      pushAll l vs = (l ++ vs).drop (l.length + vs.length - THRESHOLD_TIME_LAPSE) := by
  intro vs
  induction vs with
  | nil =>
    intro l hl
    simp only [pushAll, List.foldl_nil, List.append_nil, List.length_nil, Nat.add_zero]
    rw [Nat.sub_eq_zero_of_le hl, List.drop_zero]
  | cons v vs ih =>
    intro l hl
    have hstep : pushAll l (v :: vs) = pushAll (_append_fixed_length l v THRESHOLD_TIME_LAPSE) vs := rfl
    rcases Nat.lt_or_ge l.length THRESHOLD_TIME_LAPSE with hlt | hge
    · rw [hstep, append_fixed_length_of_lt l v hlt,
        ih (l ++ [v]) (by simp; omega)]
      have harith : (l ++ [v]).length + vs.length - THRESHOLD_TIME_LAPSE
          = l.length + (v :: vs).length - THRESHOLD_TIME_LAPSE := by
        simp; omega
      rw [harith, List.append_assoc]
      simp
    · have hfull : l.length = THRESHOLD_TIME_LAPSE := le_antisymm hl hge
      have hpush : _append_fixed_length l v THRESHOLD_TIME_LAPSE = l.tail ++ [v] := by
        unfold _append_fixed_length
        rw [if_pos hge]
      obtain ⟨a, l', rfl⟩ : ∃ a l', l = a :: l' := by
        cases l with
        | nil => simp [THRESHOLD_TIME_LAPSE] at hfull
        | cons a l' => exact ⟨a, l', rfl⟩
      have htl : (a :: l').tail = l' := rfl
      have hlen' : (l' ++ [v]).length ≤ THRESHOLD_TIME_LAPSE := by
        simp at hfull ⊢
        omega
      rw [hstep, hpush, htl, ih (l' ++ [v]) hlen']
      have harith : (l' ++ [v]).length + vs.length - THRESHOLD_TIME_LAPSE = vs.length := by
        simp at hfull ⊢
        omega
      have harith2 : (a :: l').length + (v :: vs).length - THRESHOLD_TIME_LAPSE
          = vs.length + 1 := by
        simp at hfull ⊢
        omega
      rw [harith, harith2]
      simp [List.append_assoc]

/-! ### Detector step lemmas -/

/-- Unfolded value of the capacity constant, for arithmetic tactics. -/
lemma threshold_time_lapse_eq : THRESHOLD_TIME_LAPSE = 20 := rfl

/-- A check on a window with at least two free slots returns `False` and the
state after a plain append: the length test of the breach condition fails. -/
lemma is_beyond_threshold_small (r : Resource) (v now : ℚ)
    (h : r.list_of_values.length + 1 < THRESHOLD_TIME_LAPSE) :
    is_beyond_threshold r v now =
      (false, { r with
                last_time_checked := now
                list_of_values := r.list_of_values ++ [v]
                last_value := npAverage (r.list_of_values ++ [v]) }) := by
  have happ : _append_fixed_length r.list_of_values v THRESHOLD_TIME_LAPSE
      = r.list_of_values ++ [v] :=
    append_fixed_length_of_lt r.list_of_values v (by omega)
  have hlen : ¬ (r.threshold ≤ npAverage (_append_fixed_length r.list_of_values v THRESHOLD_TIME_LAPSE)
      ∧ THRESHOLD_TIME_LAPSE ≤ (_append_fixed_length r.list_of_values v THRESHOLD_TIME_LAPSE).length) := by
    rw [happ]
    rintro ⟨-, hlen2⟩
    rw [List.length_append, List.length_singleton] at hlen2
    omega
  simp only [is_beyond_threshold]
  rw [if_neg hlen, happ]

/-- A check whose post-push window meets both breach conjuncts returns `True`
and clears the window, keeping the pre-clear mean in `last_value`. -/
lemma is_beyond_threshold_fire (r : Resource) (v now : ℚ)
    (havg : r.threshold ≤ npAverage (_append_fixed_length r.list_of_values v THRESHOLD_TIME_LAPSE))
    (hlen : THRESHOLD_TIME_LAPSE ≤ (_append_fixed_length r.list_of_values v THRESHOLD_TIME_LAPSE).length) :
    is_beyond_threshold r v now =
      (true, { r with
               last_time_checked := now
               list_of_values := []
               last_value := npAverage (_append_fixed_length r.list_of_values v THRESHOLD_TIME_LAPSE) }) := by
  simp only [is_beyond_threshold]
  rw [if_pos ⟨havg, hlen⟩]

/-- A check that returns `True` leaves the window empty. -/
lemma fire_clears (r : Resource) (v now : ℚ)
    (h : (is_beyond_threshold r v now).1 = true) :
    (is_beyond_threshold r v now).2.list_of_values = [] := by
  by_cases hc : r.threshold ≤ npAverage (_append_fixed_length r.list_of_values v THRESHOLD_TIME_LAPSE)
      ∧ THRESHOLD_TIME_LAPSE ≤ (_append_fixed_length r.list_of_values v THRESHOLD_TIME_LAPSE).length
  · simp only [is_beyond_threshold]
    rw [if_pos hc]
  · simp only [is_beyond_threshold] at h
    rw [if_neg hc] at h
    simp at h

/-- A check never touches `resource_name`, `threshold` or
`time_threshold_minutes`. -/
lemma is_beyond_threshold_frame (r : Resource) (v now : ℚ) :
    (is_beyond_threshold r v now).2.resource_name = r.resource_name ∧
    (is_beyond_threshold r v now).2.threshold = r.threshold ∧
    (is_beyond_threshold r v now).2.time_threshold_minutes = r.time_threshold_minutes := by
  by_cases hc : r.threshold ≤ npAverage (_append_fixed_length r.list_of_values v THRESHOLD_TIME_LAPSE)
      ∧ THRESHOLD_TIME_LAPSE ≤ (_append_fixed_length r.list_of_values v THRESHOLD_TIME_LAPSE).length
  · simp only [is_beyond_threshold]
    rw [if_pos hc]
    exact ⟨rfl, rfl, rfl⟩
  · simp only [is_beyond_threshold]
    rw [if_neg hc]
    exact ⟨rfl, rfl, rfl⟩

/-- `last_value` after a check is the mean of the window as it stood right
after the push, in both the firing and the non-firing branch. -/
lemma last_value_is_pre_clear_mean (r : Resource) (v now : ℚ) :
    (is_beyond_threshold r v now).2.last_value
      = npAverage (_append_fixed_length r.list_of_values v THRESHOLD_TIME_LAPSE) := by
  by_cases hc : r.threshold ≤ npAverage (_append_fixed_length r.list_of_values v THRESHOLD_TIME_LAPSE)
      ∧ THRESHOLD_TIME_LAPSE ≤ (_append_fixed_length r.list_of_values v THRESHOLD_TIME_LAPSE).length
  · simp only [is_beyond_threshold]
    rw [if_pos hc]
  · simp only [is_beyond_threshold]
    rw [if_neg hc]

/-- Mean of a constant window. -/
lemma npAverage_replicate (n : ℕ) (hn : n ≠ 0) (V : ℚ) :
    npAverage (List.replicate n V) = V := by
  unfold npAverage
  rw [List.sum_replicate, List.length_replicate, nsmul_eq_mul,
    mul_div_cancel_left₀ V (show (n : ℚ) ≠ 0 from Nat.cast_ne_zero.mpr hn)]

/-! ### Iterated-check lemmas -/

/-- Unfolding `runChecks` on an empty sample list. -/
lemma runChecks_nil (r : Resource) (now : ℚ) : runChecks r [] now = ([], r) := rfl

/-- Unfolding `runChecks` on one more sample. -/
lemma runChecks_cons (r : Resource) (v : ℚ) (vs : List ℚ) (now : ℚ) :
    runChecks r (v :: vs) now
      = ((is_beyond_threshold r v now).1
          :: (runChecks (is_beyond_threshold r v now).2 vs now).1,
         (runChecks (is_beyond_threshold r v now).2 vs now).2) := rfl

/-- Boolean component of a below-capacity check. -/
lemma is_beyond_threshold_small_fst (r : Resource) (v now : ℚ)
    (h : r.list_of_values.length + 1 < THRESHOLD_TIME_LAPSE) :
    (is_beyond_threshold r v now).1 = false := by
  rw [is_beyond_threshold_small r v now h]

/-- Window component of a below-capacity check. -/
lemma is_beyond_threshold_small_list (r : Resource) (v now : ℚ)
    (h : r.list_of_values.length + 1 < THRESHOLD_TIME_LAPSE) :
    (is_beyond_threshold r v now).2.list_of_values = r.list_of_values ++ [v] := by
  rw [is_beyond_threshold_small r v now h]

/-- Threshold field of any post-check state. -/
lemma is_beyond_threshold_threshold (r : Resource) (v now : ℚ) :
    (is_beyond_threshold r v now).2.threshold = r.threshold :=
  (is_beyond_threshold_frame r v now).2.1

/-- As long as fewer samples than the remaining free capacity arrive, every
check returns `false`. -/
lemma runChecks_all_false (now : ℚ) :
    ∀ (vs : List ℚ) (r : Resource),
      r.list_of_values.length + vs.length < THRESHOLD_TIME_LAPSE →
      (runChecks r vs now).1 = List.replicate vs.length false := by
  intro vs
  induction vs with
  | nil => intro r _; rfl
  | cons v vs ih =>
    intro r h
    have hsmall : r.list_of_values.length + 1 < THRESHOLD_TIME_LAPSE := by
      simp only [List.length_cons] at h
      omega
    have hlen' : (is_beyond_threshold r v now).2.list_of_values.length + vs.length
        < THRESHOLD_TIME_LAPSE := by
      rw [is_beyond_threshold_small_list r v now hsmall]
      simp only [List.length_append, List.length_singleton, List.length_cons,
        List.length_nil] at h ⊢
      omega
    rw [runChecks_cons]
    simp only [is_beyond_threshold_small_fst r v now hsmall, ih _ hlen',
      List.length_cons, List.replicate_succ]

/-- Running `k` checks (`1 ≤ k ≤ 20`) of the constant sample `V ≥ threshold`
on a window already holding `20 - k` copies of `V`: every check but the last
returns `false`, the `k`-th fires, and the final window is empty. -/
lemma runChecks_replicate_fire (V now : ℚ) :
    ∀ k : ℕ, 1 ≤ k → k ≤ THRESHOLD_TIME_LAPSE →
      ∀ r : Resource,
        r.list_of_values = List.replicate (THRESHOLD_TIME_LAPSE - k) V →
        r.threshold ≤ V →
        (runChecks r (List.replicate k V) now).1
            = List.replicate (k - 1) false ++ [true] ∧
        (runChecks r (List.replicate k V) now).2.list_of_values = [] := by
  intro k
  induction k with
  | zero => omega
  | succ k ih =>
    intro _ h2 r hl hT
    cases k with
    | zero =>
      have hlt : r.list_of_values.length < THRESHOLD_TIME_LAPSE := by
        rw [hl]
        simp [THRESHOLD_TIME_LAPSE]
      have happ : _append_fixed_length r.list_of_values V THRESHOLD_TIME_LAPSE
          = List.replicate THRESHOLD_TIME_LAPSE V := by
        rw [append_fixed_length_of_lt r.list_of_values V hlt, hl]
        rw [← List.replicate_succ']
        congr 1
      have hfire := is_beyond_threshold_fire r V now
        (by rw [happ, npAverage_replicate THRESHOLD_TIME_LAPSE (by simp [THRESHOLD_TIME_LAPSE]) V]; exact hT)
        (by rw [happ]; simp)
      have hrun : runChecks r (List.replicate 1 V) now
          = ([(is_beyond_threshold r V now).1], (is_beyond_threshold r V now).2) := rfl
      rw [hrun, hfire]
      simp
    | succ j =>
      have hsmall : r.list_of_values.length + 1 < THRESHOLD_TIME_LAPSE := by
        rw [hl]
        simp only [List.length_replicate, threshold_time_lapse_eq] at h2 ⊢
        omega
      have hl' : (is_beyond_threshold r V now).2.list_of_values
          = List.replicate (THRESHOLD_TIME_LAPSE - (j + 1)) V := by
        rw [is_beyond_threshold_small_list r V now hsmall, hl, ← List.replicate_succ']
        congr 1
        simp only [threshold_time_lapse_eq] at h2 ⊢
        omega
      have hT' : (is_beyond_threshold r V now).2.threshold ≤ V := by
        rw [is_beyond_threshold_threshold]
        exact hT
      have hrest := ih (by omega) (by omega) (is_beyond_threshold r V now).2 hl' hT'
      rw [List.replicate_succ, runChecks_cons]
      simp only [is_beyond_threshold_small_fst r V now hsmall, hrest.1, hrest.2]
      simp [List.replicate_succ]

/-- Concrete detector state one sample away from firing: threshold 50, a
window of nineteen samples of 60. -/
def nearlyFullResource : Resource :=
  { resource_name := "CPU"
    time_threshold_minutes := 20
    threshold := 50
    last_time_checked := 0
    list_of_values := List.replicate 19 60
    last_value := 60 }

/-- A 20th sample of 60 fires on `nearlyFullResource`: the mean is 60 ≥ 50
and the window reaches capacity, so the check returns `true`, clears the
window and records the pre-clear mean 60. -/
lemma nearlyFullResource_fires :
    is_beyond_threshold nearlyFullResource 60 0
      = (true, { nearlyFullResource with
                 last_time_checked := 0
                 list_of_values := []
                 last_value := 60 }) := by
  have happ : _append_fixed_length nearlyFullResource.list_of_values 60 THRESHOLD_TIME_LAPSE
      = List.replicate 20 60 := by
    rw [show nearlyFullResource.list_of_values = List.replicate 19 (60:ℚ) from rfl]
    rw [append_fixed_length_of_lt _ _ (by simp [threshold_time_lapse_eq])]
    rw [← List.replicate_succ']
  have hfire := is_beyond_threshold_fire nearlyFullResource 60 0
    (by rw [happ, npAverage_replicate 20 (by norm_num) 60]
        norm_num [nearlyFullResource])
    (by rw [happ]; simp [threshold_time_lapse_eq])
  rw [hfire, happ, npAverage_replicate 20 (by norm_num) 60]

/-! ### Claims -/

/-- C1: for every detector (the CPU and memory detectors share this check
logic) with an empty window, a run of exactly 20 checks all sampling the
same value `V` with `V ≥ threshold` returns `false` on the first 19 calls,
`true` on the 20th, and leaves the window with size 0. -/
theorem C1_fire_on_full_and_exceed (r : Resource) (V now : ℚ)
    (hl : r.list_of_values = []) (hV : r.threshold ≤ V) :
    (runChecks r (List.replicate THRESHOLD_TIME_LAPSE V) now).1
        = List.replicate (THRESHOLD_TIME_LAPSE - 1) false ++ [true] ∧
    (runChecks r (List.replicate THRESHOLD_TIME_LAPSE V) now).2.list_of_values.length = 0 := by
  have h := runChecks_replicate_fire V now THRESHOLD_TIME_LAPSE
    (by simp [threshold_time_lapse_eq]) le_rfl r (by rw [hl]; simp) hV
  exact ⟨h.1, by rw [h.2]; rfl⟩

/-- Witness for C1: CPU detector with threshold 50, twenty samples of 60. -/
theorem C1_fire_on_full_and_exceed_witness :
    (runChecks (CPUResource.init 20 50 0) (List.replicate THRESHOLD_TIME_LAPSE 60) 0).1
        = List.replicate (THRESHOLD_TIME_LAPSE - 1) false ++ [true] ∧
    (runChecks (CPUResource.init 20 50 0) (List.replicate THRESHOLD_TIME_LAPSE 60) 0).2.list_of_values.length = 0 :=
  C1_fire_on_full_and_exceed (CPUResource.init 20 50 0) 60 0 rfl
    (by norm_num [CPUResource.init])

/-- C2: starting from an empty window, a sequence of fewer than 20 checks
whose sampled values are each at least the threshold returns `false` on
every call: a partially filled window never fires. -/
theorem C2_no_fire_before_full (r : Resource) (vs : List ℚ) (now : ℚ)
    (hl : r.list_of_values = []) (hlen : vs.length < THRESHOLD_TIME_LAPSE)
    (hT : ∀ v ∈ vs, r.threshold ≤ v) :
    (runChecks r vs now).1 = List.replicate vs.length false := by
  apply runChecks_all_false
  rw [hl]
  simpa using hlen

/-- Witness for C2: memory detector with threshold 50, nineteen samples
of 100. -/
theorem C2_no_fire_before_full_witness :
    (runChecks (MemoryResource.init 20 50 0) (List.replicate 19 100) 0).1
        = List.replicate (List.replicate 19 (100:ℚ)).length false :=
  C2_no_fire_before_full (MemoryResource.init 20 50 0) (List.replicate 19 100) 0 rfl
    (by simp [threshold_time_lapse_eq])
    (fun v hv => by rw [List.eq_of_mem_replicate hv]; norm_num [MemoryResource.init])

/-- C3: pushing through `_append_fixed_length` with `max_size` 20 keeps the
list at no more than 20 elements for every push sequence, and after
`20 + k` pushes the list holds exactly the last 20 pushed values in
insertion order (`vs.drop k`). -/
theorem C3_window_capacity (vs : List ℚ) :
    (pushAll [] vs).length ≤ THRESHOLD_TIME_LAPSE ∧
    ∀ k : ℕ, vs.length = THRESHOLD_TIME_LAPSE + k → pushAll [] vs = vs.drop k := by
  have h := pushAll_eq_drop vs [] (by simp)
  simp only [List.nil_append, List.length_nil, Nat.zero_add] at h
  constructor
  · rw [h, List.length_drop]
    omega
  · intro k hk
    rw [h, hk]
    congr 1
    omega

/-- Witness for C3: 21 pushes of the value 7; the window is the last 20. -/
theorem C3_window_capacity_witness :
    (pushAll [] (List.replicate 21 (7:ℚ))).length ≤ THRESHOLD_TIME_LAPSE ∧
    pushAll [] (List.replicate 21 (7:ℚ)) = (List.replicate 21 (7:ℚ)).drop 1 :=
  ⟨(C3_window_capacity (List.replicate 21 7)).1,
   (C3_window_capacity (List.replicate 21 7)).2 1 (by simp [threshold_time_lapse_eq])⟩

/-- C4: if a check fired (returning `true` and clearing the window), the
very next check on that detector returns `false` whatever value it samples,
because the window then holds a single element and 1 < 20. -/
theorem C4_hysteresis_reset (r r' : Resource) (v now : ℚ)
    (h : is_beyond_threshold r v now = (true, r')) (w now2 : ℚ) :
    (is_beyond_threshold r' w now2).1 = false := by
  have hclear : r'.list_of_values = [] := by
    have hc := fire_clears r v now (by rw [h])
    rwa [h] at hc
  apply is_beyond_threshold_small_fst
  rw [hclear]
  simp [threshold_time_lapse_eq]

/-- Witness for C4: right after `nearlyFullResource` fires, a sample of
1000000 does not fire. -/
theorem C4_hysteresis_reset_witness :
    (is_beyond_threshold { nearlyFullResource with
                           last_time_checked := 0
                           list_of_values := []
                           last_value := 60 } 1000000 5).1 = false :=
  C4_hysteresis_reset nearlyFullResource _ 60 0 nearlyFullResource_fires 1000000 5

/-- C5: after every check, `last_value` equals the mean of the window as it
stood immediately after the push and before any clear; in particular on a
firing call the window is cleared while `last_value` — the value the loop
passes to `warn_threshold_breach` — keeps that pre-clear mean. -/
theorem C5_last_value_pre_clear_mean (r : Resource) (v now : ℚ) :
    (is_beyond_threshold r v now).2.last_value
        = npAverage (_append_fixed_length r.list_of_values v THRESHOLD_TIME_LAPSE) ∧
    ((is_beyond_threshold r v now).1 = true →
      (is_beyond_threshold r v now).2.list_of_values = []) :=
  ⟨last_value_is_pre_clear_mean r v now, fire_clears r v now⟩

/-- Witness for C5: on the firing check of `nearlyFullResource`,
`last_value` is the pre-clear mean and the window is empty. -/
theorem C5_last_value_pre_clear_mean_witness :
    (is_beyond_threshold nearlyFullResource 60 0).2.last_value
        = npAverage (_append_fixed_length nearlyFullResource.list_of_values 60 THRESHOLD_TIME_LAPSE) ∧
    (is_beyond_threshold nearlyFullResource 60 0).2.list_of_values = [] :=
  ⟨(C5_last_value_pre_clear_mean nearlyFullResource 60 0).1,
   (C5_last_value_pre_clear_mean nearlyFullResource 60 0).2 (by rw [nearlyFullResource_fires])⟩

/-- C6: contrary to the claim, a run with no `--cpu` and no `--memory` flag
still registers both detectors, because `dest in args` tests attribute
presence on the argparse namespace and both destinations always exist
(defaulting to `None`): the registry has two entries, not zero. -/
theorem C6_registry_with_no_flags :
    resources_to_check { cpu_threshold_percent := none, memory_threshold_percent := none }
      = [{ resource_name := "CPU", time_threshold_minutes := THRESHOLD_TIME_LAPSE,
           threshold := none },
         { resource_name := "Memory", time_threshold_minutes := THRESHOLD_TIME_LAPSE,
           threshold := none }] := rfl

/-- C7: contrary to the claim, a non-numeric threshold is accepted silently:
`--cpu banana` registers the CPU detector with the raw string `"banana"` as
its threshold (and the memory detector with `None`), with no validation,
rejection or failure before the loop begins. -/
theorem C7_invalid_threshold_registered :
    resources_to_check { cpu_threshold_percent := some "banana", memory_threshold_percent := none }
      = [{ resource_name := "CPU", time_threshold_minutes := THRESHOLD_TIME_LAPSE,
           threshold := some "banana" },
         { resource_name := "Memory", time_threshold_minutes := THRESHOLD_TIME_LAPSE,
           threshold := none }] := rfl

/-- C8: contrary to the claim, a sampler failure is fatal to the tick: the
check body has no exception handler, so the tick aborts with the propagated
exception instead of skipping the push and continuing, and every later
detector goes unchecked; the failed detector's window itself is unchanged
(only its timestamp was already updated). -/
theorem C8_sample_failure_fatal (r : Resource) (rest : List (Resource × Option ℚ)) (now : ℚ) :
    monitorTick ((r, none) :: rest) now
        = Except.error { r with last_time_checked := now } ∧
    ({ r with last_time_checked := now } : Resource).list_of_values = r.list_of_values :=
  ⟨rfl, rfl⟩

/-- C9: the list passed to `np.average` in a check is exactly the
just-pushed window `_append_fixed_length(list_of_values, sample, 20)` —
the push precedes the mean — and that list always has at least one
element, so the mean is never evaluated on an empty window. -/
theorem C9_mean_never_on_empty_window (r : Resource) (v now : ℚ) :
    (is_beyond_threshold r v now).2.last_value
        = npAverage (_append_fixed_length r.list_of_values v THRESHOLD_TIME_LAPSE) ∧
    1 ≤ (_append_fixed_length r.list_of_values v THRESHOLD_TIME_LAPSE).length :=
  ⟨last_value_is_pre_clear_mean r v now,
   append_fixed_length_length_pos r.list_of_values v THRESHOLD_TIME_LAPSE⟩

/-- C10: a check never modifies `resource_name`, `threshold` or
`time_threshold_minutes`; only `last_time_checked`, `list_of_values` and
`last_value` can change. -/
theorem C10_check_frame (r : Resource) (v now : ℚ) :
    (is_beyond_threshold r v now).2.resource_name = r.resource_name ∧
    (is_beyond_threshold r v now).2.threshold = r.threshold ∧
    (is_beyond_threshold r v now).2.time_threshold_minutes = r.time_threshold_minutes :=
  is_beyond_threshold_frame r v now
